import Mathlib

/-!
Shallow embedding of the OCSDashboardECD metrics pipeline.

The repository computes dashboard metrics twice over the same data:
once in Python (`src/metrics_calculator.py`, class `MetricsCalculator`)
and once in the JavaScript embedded in the generated HTML page
(`src/dashboard_generator.py`, function `calculateMetrics` and the
filtering function `updateFilters`).  Raw session and message-bundle
records are JSON dictionaries; we model the fields the code reads,
with `Option` for possibly-missing keys.  Python / JavaScript numeric
results (medians, means, percentages) are modelled over `ℚ`; both
languages compute them with the same arithmetic expressions, so
equalities and inequalities between the two sides are preserved.
-/

namespace OCS

/-- A JSON tag value: the code accepts plain strings and `{name: …}`
objects (`isinstance(tag, dict)` in `metrics_calculator.py`,
`typeof tag === 'string'` in the embedded JS). -/
inductive Tag where
  | str (s : String)
  | obj (name : Option String)
deriving Repr, DecidableEq

/-- `tag.get('name', '') if isinstance(tag, dict) else str(tag)`
(metrics_calculator.py lines 157, 202) and
`typeof tag === 'string' ? tag : tag.name || ''` (dashboard JS). -/
def Tag.name : Tag → String
  | .str s => s
  | .obj n => n.getD ""

/-- Whether a tag is a plain string (hashable in Python; a `dict` tag
makes `set(all_tags)` raise `TypeError`). -/
def Tag.isStr : Tag → Bool
  | .str _ => true
  | .obj _ => false

/-- A raw message inside a message bundle: the code reads
`role`, `content`, `tags` (metrics) and `created_at` (normalizer). -/
structure RawMessage where
  role : Option String := none
  content : Option String := none
  tags : List Tag := []
  created_at : Option String := none
deriving Repr, DecidableEq

/-- A raw message bundle (`message_data`): the code reads `id` and
`messages` (`message_data.get('messages', [])`). -/
structure RawBundle where
  id : Option String := none
  messages : List RawMessage := []
deriving Repr, DecidableEq

/-- Raw `experiment` sub-object of a session.  `versions` is the list
of raw version-info dictionaries read by `Experiment.from_api_data`. -/
structure RawExpVersion where
  name : Option String := none
  version_number : Option Int := none
  is_default_version : Option Bool := none
  version_description : Option String := none
deriving Repr, DecidableEq

/-- Raw experiment dictionary; `none` fields model missing keys. -/
structure RawExperiment where
  id : Option String := none
  name : Option String := none
  url : Option String := none
  version_number : Option Int := none
  versions : List RawExpVersion := []
deriving Repr, DecidableEq

/-- Raw team dictionary. -/
structure RawTeam where
  name : Option String := none
  slug : Option String := none
deriving Repr, DecidableEq

/-- Raw participant dictionary. -/
structure RawParticipant where
  identifier : Option String := none
  remote_id : Option String := none
deriving Repr, DecidableEq

/-- A raw session record.  `experiment`/`team`/`participant` are
`Option` so that a missing key or empty dictionary (both falsy in
Python's `if experiment:` test) is `none`.  `messages` is `Option`
because `Session.from_api_data` tests `'messages' in data` before
truthiness. -/
structure RawSession where
  id : Option String := none
  url : Option String := none
  created_at : Option String := none
  updated_at : Option String := none
  experiment : Option RawExperiment := none
  team : Option RawTeam := none
  participant : Option RawParticipant := none
  tags : List Tag := []
  messages : Option (List RawMessage) := none
deriving Repr, DecidableEq

/-! ## Generic helpers modelling Python / JavaScript primitives -/

/-- Python truthiness of an optional string (`if s:`): present and
non-empty. -/
def truthyStr : Option String → Bool
  | some s => s ≠ ""
  | none => false

/-- Python `len(content.split())`: split on whitespace runs, empties
discarded.  The guard `if content else 0` in the source is redundant
with this (`''.split() == []`) but we keep the same value. -/
def pyWordCount (content : String) : Nat :=
  ((content.split Char.isWhitespace).filter (· ≠ "")).length

/-- JavaScript `content.split(' ').length`: split on single spaces,
keeping empty pieces (so `''.split(' ').length == 1`). -/
def jsWordCount (content : String) : Nat :=
  (content.splitOn " ").length

/-- ASCII word character, as in `\w` / `\b` of the regexes used here
(all pattern text is ASCII). -/
def isWordChar (c : Char) : Bool :=
  c.isAlpha || c.isDigit || c = '_'

/-- Whether `pat` is a prefix of `s`, returning the remainder. -/
def stripPrefixCL : List Char → List Char → Option (List Char)
  | [], s => some s
  | _ :: _, [] => none
  | p :: ps, c :: cs => if p = c then stripPrefixCL ps cs else none

/-- One candidate match position for a `\b…\b` regex whose literal
body starts and ends with word characters (true of every pattern in
the source): the previous character must not be a word character and
the character following the match must not be a word character. -/
def wbAt (pat s : List Char) (prevIsWord : Bool) : Bool :=
  match stripPrefixCL pat s with
  | none => false
  | some rest =>
    !prevIsWord && (match rest with
      | [] => true
      | c :: _ => !isWordChar c)

/-- Scan of `re.search(r'\b<pat>\b', s)` / `/\b<pat>\b/.test(s)` over
all positions, tracking whether the previous character is a word
character. -/
def wbSearchAux (pat : List Char) : Bool → List Char → Bool
  | prevw, [] => wbAt pat [] prevw
  | prevw, c :: cs => wbAt pat (c :: cs) prevw || wbSearchAux pat (isWordChar c) cs

/-- `re.search(r'\b<pat>\b', s) is not None`, for a literal pattern
body `pat` that starts and ends with word characters. -/
def wbSearch (pat : String) (s : List Char) : Bool :=
  wbSearchAux pat.toList false s

/-- Python `str.lower()` / JS `toLowerCase()` on the ASCII content. -/
def lowerChars (s : String) : List Char :=
  s.toList.map Char.toLower

/-- Python `'coaching' in tag_name.lower()` / JS
`tagName.toLowerCase().includes('coaching')`: substring test. -/
def containsSubstr (needle : String) (hay : List Char) : Bool :=
  (List.range (hay.length + 1)).any fun i =>
    (stripPrefixCL needle.toList (hay.drop i)).isSome

/-- `re.match(r'^v\d+$', tag_name.lower())`: the whole (lowercased)
string is `v` followed by one or more digits. -/
def isVersionTagName (s : String) : Bool :=
  match lowerChars s with
  | 'v' :: ds => ds ≠ [] && ds.all Char.isDigit
  | _ => false

/-- Insertion sort used to model the sorting done by
`statistics.median` and the JS `sort((a, b) => a - b)`. -/
def insertSorted (x : Nat) : List Nat → List Nat
  | [] => [x]
  | y :: ys => if x ≤ y then x :: y :: ys else y :: insertSorted x ys

/-- Sort a list of naturals ascending. -/
def sortNats (l : List Nat) : List Nat :=
  l.foldr insertSorted []

/-- Exact median of a list of naturals (`statistics.median` in Python,
the `median` helper in the embedded JS: both average the two middle
elements of the sorted list when the length is even). -/
def medianQ (l : List Nat) : ℚ :=
  let s := sortNats l
  let n := s.length
  if n % 2 = 1 then (s.getD (n / 2) 0 : ℚ)
  else ((s.getD (n / 2 - 1) 0 : ℚ) + (s.getD (n / 2) 0 : ℚ)) / 2

/-- Exact mean (`statistics.mean`). -/
def meanQ (l : List Nat) : ℚ :=
  (l.foldl (· + ·) 0 : ℕ) / (l.length : ℚ)

/-- Bump a counter in an insertion-ordered dictionary
(`defaultdict(int)` behaviour: the first occurrence of a key fixes its
position; later bumps update it in place). -/
def bumpCount : List (String × Nat) → String → List (String × Nat)
  | [], k => [(k, 1)]
  | p :: ps, k => if p.1 = k then (p.1, p.2 + 1) :: ps else p :: bumpCount ps k

/-- Lookup in an association list with a default of `0`
(`annotation_counts[tag_name]` read back via `dict` lookup). -/
def countOf : List (String × Nat) → String → Nat
  | [], _ => 0
  | p :: ps, k => if p.1 = k then p.2 else countOf ps k

/-- `d[k] = v` on an insertion-ordered dictionary: replace in place if
the key exists, else append at the end. -/
def setAssoc {α : Type} : List (String × α) → String → α → List (String × α)
  | [], k, v => [(k, v)]
  | p :: ps, k, v => if p.1 = k then (p.1, v) :: ps else p :: setAssoc ps k v

/-- Dictionary lookup returning `none` for a missing key. -/
def lookupAssoc {α : Type} : List (String × α) → String → Option α
  | [], _ => none
  | p :: ps, k => if p.1 = k then some p.2 else lookupAssoc ps k

/-- Bump an `Int`-keyed counter (inner `defaultdict(int)` of
`version_counts`). -/
def bumpCountInt : List (Int × Nat) → Int → List (Int × Nat)
  | [], k => [(k, 1)]
  | p :: ps, k => if p.1 = k then (p.1, p.2 + 1) :: ps else p :: bumpCountInt ps k

/-- `version_counts[exp_id][session_version] += 1` on the nested
`defaultdict(lambda: defaultdict(int))`. -/
def bumpVersion : List (String × List (Int × Nat)) → String → Int →
    List (String × List (Int × Nat))
  | [], k, v => [(k, bumpCountInt [] v)]
  | p :: ps, k, v =>
    if p.1 = k then (p.1, bumpCountInt p.2 v) :: ps else p :: bumpVersion ps k v

/-- Python `min` over a list of strings (lexicographic), `none` when
empty. -/
def minString? (l : List String) : Option String :=
  l.foldl (fun acc s =>
    match acc with
    | none => some s
    | some m => if s < m then some s else some m) none

/-- Python `max` over a list of strings, `none` when empty. -/
def maxString? (l : List String) : Option String :=
  l.foldl (fun acc s =>
    match acc with
    | none => some s
    | some m => if m < s then some s else some m) none

/-! ## The Python `MetricsCalculator` (src/metrics_calculator.py) -/

/-- `MetricsCalculator._build_session_messages_map`: a dictionary from
truthy bundle ids to the bundle, later entries overwriting earlier
ones (`session_map[session_id] = message_data`). -/
def buildSessionMessagesMap (messages : List RawBundle) : List (String × RawBundle) :=
  messages.foldl (fun m b =>
    if truthyStr b.id then setAssoc m (b.id.getD "") b else m) []

/-- The apostrophe character (used in two regex pattern literals). -/
def apos : Char := Char.ofNat 39

/-- The `appreciation_patterns` list from
`MetricsCalculator._calculate_sentiment_stats` (each `\b…\b` regex is
represented by its literal body). -/
def appreciationPatterns : List (List Char) :=
  ["thank".toList, "thanks".toList, "thank you".toList, "grateful".toList,
   "appreciate".toList, "awesome".toList, "great".toList, "excellent".toList,
   "helpful".toList, "wonderful".toList, "amazing".toList, "perfect".toList]

/-- The `dissatisfaction_patterns` list from
`MetricsCalculator._calculate_sentiment_stats`. -/
def dissatisfactionPatterns : List (List Char) :=
  ["frustrat".toList, "confus".toList, "wrong".toList, "bad".toList,
   "terrible".toList, "awful".toList, "useless".toList, "stupid".toList,
   "don".toList ++ [apos] ++ "t understand".toList,
   "doesn".toList ++ [apos] ++ "t work".toList,
   "not helpful".toList]

/-- `any(re.search(pattern, content, re.IGNORECASE) for pattern in
patterns)` on already-lowercased content. -/
def matchesAny (pats : List (List Char)) (content : List Char) : Bool :=
  pats.any (fun p => wbSearchAux p false content)

/-- Result record of `_calculate_basic_stats`. -/
structure BasicStats where
  total_sessions : Nat
  sessions_with_messages : Nat
  date_range_start : Option String
  date_range_end : Option String
  experiments_count : Nat
  teams_count : Nat
deriving Repr, DecidableEq

/-- Result record of `_calculate_message_stats`. -/
structure MessageStats where
  total_messages : Nat
  median_user_words : ℚ
  median_assistant_words : ℚ
  avg_user_words : ℚ
  avg_assistant_words : ℚ
  sessions_with_messages : Nat
deriving Repr, DecidableEq

/-- Result record of `_calculate_sentiment_stats`. -/
structure SentimentStats where
  appreciation_count : Nat
  dissatisfaction_count : Nat
  total_user_messages : Nat
  appreciation_percentage : ℚ
  dissatisfaction_percentage : ℚ
deriving Repr, DecidableEq

/-- The fixed `quality_categories` dictionary of
`_calculate_annotation_stats`. -/
structure QualityCategories where
  bot_performance_good : Nat
  bot_performance_bad : Nat
  engagement_good : Nat
  engagement_bad : Nat
  coaching_good : Nat
  coaching_bad : Nat
  coaching_undetermined : Nat
  safe : Nat
  accurate : Nat
  user_knowledge_good : Nat
  user_knowledge_bad : Nat
deriving Repr, DecidableEq

/-- Result record of `_calculate_annotation_stats`. -/
structure AnnotationStats where
  total_tags : Nat
  unique_tags : Nat
  sessions_with_tags : Nat
  annotation_counts : List (String × Nat)
  quality_categories : QualityCategories
deriving Repr, DecidableEq

/-- Result record of `_calculate_coaching_quality`. -/
structure CoachingQuality where
  total_coaching_annotations : Nat
  coaching_counts : List (String × Nat)
  coaching_percentages : List (String × ℚ)
deriving Repr, DecidableEq

/-- Result record of `_calculate_experiment_stats`. -/
structure ExperimentStats where
  experiment_counts : List (String × Nat)
  experiment_names : List (String × String)
  version_counts : List (String × List (Int × Nat))
deriving Repr, DecidableEq

/-- The full dictionary returned by `calculate_all_metrics`. -/
structure AllMetrics where
  basic_stats : BasicStats
  message_stats : MessageStats
  sentiment_stats : SentimentStats
  annotation_stats : AnnotationStats
  coaching_quality : CoachingQuality
  experiment_stats : ExperimentStats
deriving Repr, DecidableEq

/-- `MetricsCalculator._calculate_basic_stats`, as a function of the
session list and the prebuilt session-messages map. -/
def basicStats (sessions : List RawSession) (map : List (String × RawBundle)) :
    BasicStats :=
  let dates := sessions.filterMap fun s =>
    if truthyStr s.created_at then s.created_at else none
  { total_sessions := sessions.length
    sessions_with_messages := (sessions.filter fun s =>
      match s.id with
      | some sid => (lookupAssoc map sid).isSome
      | none => false).length
    date_range_start := minString? dates
    date_range_end := maxString? dates
    experiments_count := ((sessions.filterMap fun s =>
      match s.experiment with
      | some e => if truthyStr e.id then e.id else none
      | none => none).dedup).length
    teams_count := ((sessions.filterMap fun s =>
      match s.team with
      | some t => if truthyStr t.slug then t.slug else none
      | none => none).dedup).length }

/-- `MetricsCalculator._calculate_message_stats`: iterates the values
of the session-messages map (skipping bundles with an empty message
list), counting every message and collecting per-role word counts. -/
def messageStatsOfMap (map : List (String × RawBundle)) : MessageStats :=
  let counted := map.filter fun p => p.2.messages ≠ []
  let total_messages := ((counted.map fun p => p.2.messages.length).foldl (· + ·) 0)
  let userWords := counted.flatMap fun p =>
    (p.2.messages.filter fun m => m.role == some "user").map fun m =>
      pyWordCount (m.content.getD "")
  let assistantWords := counted.flatMap fun p =>
    (p.2.messages.filter fun m => m.role == some "assistant").map fun m =>
      pyWordCount (m.content.getD "")
  { total_messages
    median_user_words := if userWords ≠ [] then medianQ userWords else 0
    median_assistant_words := if assistantWords ≠ [] then medianQ assistantWords else 0
    avg_user_words := if userWords ≠ [] then meanQ userWords else 0
    avg_assistant_words := if assistantWords ≠ [] then meanQ assistantWords else 0
    sessions_with_messages := (map.filter fun p => p.2.messages ≠ []).length }

/-- `MetricsCalculator._calculate_sentiment_stats`: classify every
user-role message of every bundle in the map against the two pattern
sets, counting a message at most once per category. -/
def sentimentStatsOfMap (map : List (String × RawBundle)) : SentimentStats :=
  let userContents : List (List Char) := map.flatMap fun p =>
    (p.2.messages.filter fun m => m.role == some "user").map fun m =>
      lowerChars (m.content.getD "")
  let total := userContents.length
  let app := (userContents.filter (matchesAny appreciationPatterns)).length
  let dis := (userContents.filter (matchesAny dissatisfactionPatterns)).length
  { appreciation_count := app
    dissatisfaction_count := dis
    total_user_messages := total
    appreciation_percentage := if total > 0 then (app : ℚ) / total * 100 else 0
    dissatisfaction_percentage := if total > 0 then (dis : ℚ) / total * 100 else 0 }

/-- `MetricsCalculator._calculate_annotation_stats`.  `all_tags`
collects every tag of every session with a non-empty tag list;
`annotation_counts` counts truthy, non-version tag names; the final
`len(set(all_tags))` raises `TypeError` when a tag is a `dict`
(unhashable), which we model as `Except.error`. -/
def annotationStats (sessions : List RawSession) : Except Unit AnnotationStats :=
  let all_tags := (sessions.filter fun s => s.tags ≠ []).flatMap (·.tags)
  let counts := all_tags.foldl (fun m tag =>
    let n := Tag.name tag
    if n ≠ "" && !isVersionTagName n then bumpCount m n else m) []
  let total_annotated := (sessions.filter fun s => s.tags ≠ []).length
  if all_tags.all Tag.isStr then
    .ok { total_tags := all_tags.length
          unique_tags := ((all_tags.filterMap fun t =>
            match t with
            | .str s => some s
            | .obj _ => none).dedup).length
          sessions_with_tags := total_annotated
          annotation_counts := counts
          quality_categories :=
            { bot_performance_good := countOf counts "bot_performance_good"
              bot_performance_bad := countOf counts "bot_performance_bad"
              engagement_good := countOf counts "engagement_good"
              engagement_bad := countOf counts "engagement_bad"
              coaching_good := countOf counts "coaching_good"
              coaching_bad := countOf counts "coaching_bad"
              coaching_undetermined := countOf counts "coaching_undetermined"
              safe := countOf counts "safe"
              accurate := countOf counts "accurate"
              user_knowledge_good := countOf counts "user_knowledge_good"
              user_knowledge_bad := countOf counts "user_knowledge_bad" } }
  else
    .error ()

/-- `MetricsCalculator._calculate_coaching_quality`: per session,
collect tag names containing the substring `coaching` (lowercased);
count tags per name, count sessions with at least one such tag, and
derive percentages. -/
def coachingQuality (sessions : List RawSession) : CoachingQuality :=
  let coachingNames := fun (s : RawSession) =>
    (s.tags.map Tag.name).filter fun n => containsSubstr "coaching" (lowerChars n)
  let counts := sessions.foldl (fun m s =>
    (coachingNames s).foldl (fun m n => bumpCount m n) m) []
  let total := (sessions.filter fun s => coachingNames s ≠ []).length
  { total_coaching_annotations := total
    coaching_counts := counts
    coaching_percentages :=
      if total > 0 then counts.map (fun p => (p.1, (p.2 : ℚ) / total * 100)) else [] }

/-- `session.get('experiment', {}).get('version_number', 1)`: the
nominal version with default `1`. -/
def nominalVersion (s : RawSession) : Int :=
  match s.experiment with
  | some e => e.version_number.getD 1
  | none => 1

/-- `int(tag[1:])` for a string tag passing
`tag.startswith('v') and tag[1:].isdigit()`. -/
def vTagValue (s : String) : Option Int :=
  match s.toList with
  | 'v' :: ds =>
    if ds ≠ [] && ds.all Char.isDigit then
      some (ds.foldl (fun acc c => acc * 10 + ((c.toNat : Int) - ('0'.toNat : Int))) 0)
    else none
  | _ => none

/-- First `v<digits>` string tag in a tag list. -/
def firstVTagIn : List Tag → Option Int
  | [] => none
  | .str s :: ts =>
    match vTagValue s with
    | some v => some v
    | none => firstVTagIn ts
  | .obj _ :: ts => firstVTagIn ts

/-- First `v<digits>` string tag across the messages of a bundle, in
message order then tag order. -/
def firstVersionTag : List RawMessage → Option Int
  | [] => none
  | m :: ms =>
    match firstVTagIn m.tags with
    | some v => some v
    | none => firstVersionTag ms

/-- `MetricsCalculator._extract_version_from_session`: falsy or
unmapped session id falls back to the nominal version; otherwise the
first `v<digits>` message tag wins, with the nominal version as
fallback. -/
def extractVersionFromSession (map : List (String × RawBundle)) (s : RawSession) : Int :=
  match s.id with
  | none => nominalVersion s
  | some sid =>
    if sid = "" then nominalVersion s
    else
      match lookupAssoc map sid with
      | none => nominalVersion s
      | some b => (firstVersionTag b.messages).getD (nominalVersion s)

/-- `MetricsCalculator._calculate_experiment_stats`. -/
def experimentStats (sessions : List RawSession) (map : List (String × RawBundle)) :
    ExperimentStats :=
  let step := fun (acc : ExperimentStats) (s : RawSession) =>
    match s.experiment with
    | none => acc
    | some e =>
      if truthyStr e.id then
        let expId := e.id.getD ""
        let expName := e.name.getD "Unknown"
        let v := extractVersionFromSession map s
        { experiment_counts := bumpCount acc.experiment_counts expId
          experiment_names := setAssoc acc.experiment_names expId expName
          version_counts :=
            if v ≠ 0 then bumpVersion acc.version_counts expId v
            else acc.version_counts }
      else acc
  sessions.foldl step ⟨[], [], []⟩

/-- `calculate_all_metrics` as a function of the session list and the
prebuilt map (the only way the sub-calculations read the bundles).
The whole call raises exactly when `_calculate_annotation_stats`
raises. -/
def calcFromParts (sessions : List RawSession) (map : List (String × RawBundle)) :
    Except Unit AllMetrics :=
  match annotationStats sessions with
  | .error e => .error e
  | .ok ann =>
    .ok { basic_stats := basicStats sessions map
          message_stats := messageStatsOfMap map
          sentiment_stats := sentimentStatsOfMap map
          annotation_stats := ann
          coaching_quality := coachingQuality sessions
          experiment_stats := experimentStats sessions map }

/-- The `MetricsCalculator` object: `__init__` stores the two lists
and caches `session_messages_map`. -/
structure MetricsCalculator where
  sessions : List RawSession
  messages : List RawBundle
  session_messages_map : List (String × RawBundle)
deriving Repr, DecidableEq

/-- `MetricsCalculator.__init__`. -/
def MetricsCalculator.init (sessions : List RawSession) (messages : List RawBundle) :
    MetricsCalculator :=
  { sessions, messages, session_messages_map := buildSessionMessagesMap messages }

/-- `MetricsCalculator.calculate_all_metrics`, returning the result
together with the (unchanged) object state: the method only reads
`self.sessions` and `self.session_messages_map`. -/
def MetricsCalculator.calculate_all_metrics (c : MetricsCalculator) :
    Except Unit AllMetrics × MetricsCalculator :=
  (calcFromParts c.sessions c.session_messages_map, c)

/-- The engine applied to a `(sessions, messageBundles)` input pair. -/
def calculateAllMetrics (sessions : List RawSession) (messages : List RawBundle) :
    Except Unit AllMetrics :=
  (MetricsCalculator.calculate_all_metrics (MetricsCalculator.init sessions messages)).1

/-! ## The embedded JavaScript `calculateMetrics`
(src/dashboard_generator.py, generated page script)

The JS `sessionMessagesMap` is a *plain object*
(`const sessionMessagesMap = {}`), so `sessionMessagesMap[k]` is a
property read through the prototype chain: a key such as
`"constructor"` with no own entry reads a truthy member inherited from
`Object.prototype`, and the assignment
`sessionMessagesMap['__proto__'] = msgData` triggers the inherited
setter and replaces the object's prototype instead of creating an own
key.  The model below represents these semantics explicitly. -/

/-- Standard property names a plain object inherits from
`Object.prototype` (its methods plus the `__proto__` accessor);
reading any of them on a fresh `{}` yields a truthy value. -/
def objectPrototypeProps : List String :=
  ["constructor", "hasOwnProperty", "isPrototypeOf", "propertyIsEnumerable",
   "toLocaleString", "toString", "valueOf", "__defineGetter__",
   "__defineSetter__", "__lookupGetter__", "__lookupSetter__", "__proto__"]

/-- A JavaScript value read out of the session-messages object:
`undefined`, a bundle object, a string or array read off a bundle
installed as the prototype, or an inherited `Object.prototype` member
(a function or object, always truthy). -/
inductive JsValue where
  | jsUndefined
  | bundle (b : RawBundle)
  | str (s : String)
  | arr (ms : List RawMessage)
  | builtin
deriving Repr, DecidableEq

/-- JS truthiness of such a value (only `undefined` and the empty
string are falsy here; arrays are truthy even when empty). -/
def JsValue.truthy : JsValue → Bool
  | .jsUndefined => false
  | .bundle _ => true
  | .str s => s ≠ ""
  | .arr _ => true
  | .builtin => true

/-- `if (messageData && messageData.messages) { messageData.messages.forEach(...) }`:
only a bundle-valued read has a `.messages` array (truthy even when
empty); every other value is falsy or lacks the property, so nothing
is iterated. -/
def JsValue.iterMessages : JsValue → List RawMessage
  | .bundle b => b.messages
  | _ => []

/-- The plain object `const sessionMessagesMap = {}`: own enumerable
properties plus the prototype, which starts as `Object.prototype`
(`none`) and which an assignment to `__proto__` replaces with a
bundle. -/
structure JsObject where
  own : List (String × RawBundle)
  proto : Option RawBundle
deriving Repr, DecidableEq

/-- `sessionMessagesMap[msgData.id] = msgData`: assigning to
`__proto__` triggers the inherited setter and replaces the prototype
instead of creating an own key; any other key becomes or overwrites an
own property. -/
def jsObjSet (m : JsObject) (k : String) (b : RawBundle) : JsObject :=
  if k = "__proto__" then { m with proto := some b }
  else { m with own := setAssoc m.own k b }

/-- `obj[session.id]` when `session.id` is `undefined`: the property
key is coerced to the string `"undefined"`. -/
def jsKeyOf : Option String → String
  | some s => s
  | none => "undefined"

/-- Property read `sessionMessagesMap[k]`: own properties first, then
the prototype chain.  A bundle installed as prototype exposes its `id`
and `messages` fields (the keys `_get_messages_data_json` serializes
on every bundle), reading `__proto__` hits the inherited accessor and
returns the receiver's prototype object, and finally the
`Object.prototype` members answer. -/
def jsObjGet (m : JsObject) (k : String) : JsValue :=
  match lookupAssoc m.own k with
  | some b => .bundle b
  | none =>
    match m.proto with
    | some pb =>
      if k = "id" then
        match pb.id with
        | some s => .str s
        | none => .jsUndefined
      else if k = "messages" then .arr pb.messages
      else if k = "__proto__" then .bundle pb
      else if k ∈ objectPrototypeProps then .builtin
      else .jsUndefined
    | none =>
      if k ∈ objectPrototypeProps then .builtin
      else .jsUndefined

/-- The map-building loop of the JS `calculateMetrics`
(`messages.forEach(msgData => { if (msgData.id) { sessionMessagesMap[msgData.id] = msgData; } })`). -/
def buildJsMessagesMap (messages : List RawBundle) : JsObject :=
  messages.foldl (fun m b =>
    if truthyStr b.id then jsObjSet m (b.id.getD "") b else m) ⟨[], none⟩

/-- The record returned by the JS `calculateMetrics`. -/
structure JsMetrics where
  totalSessions : Nat
  experimentsCount : Nat
  teamsCount : Nat
  sessionsWithMessages : Nat
  totalMessages : Nat
  medianUserWords : ℚ
  medianBotWords : ℚ
  annotatedSessions : Nat
  appreciationCount : Nat
  dissatisfactionCount : Nat
  appreciationPercentage : ℚ
  dissatisfactionPercentage : ℚ
  coachingAnnotations : Nat
  botPerformanceGood : Nat
deriving Repr, DecidableEq

/-- The JS `calculateMetrics(sessions, messages)`.  It builds a
truthy-id last-wins map as a plain object, but iterates messages via
the *session list* (`sessions.forEach` with a property read on that
object), counts words with `content.split(' ').length`, counts
coaching *tags* (not sessions), and tests sentiment only on user
messages of sessions' bundles. -/
def jsCalculateMetrics (sessions : List RawSession) (messages : List RawBundle) :
    JsMetrics :=
  let map := buildJsMessagesMap messages
  let perSessionMsgs : List RawMessage := sessions.flatMap fun s =>
    (jsObjGet map (jsKeyOf s.id)).iterMessages
  let userMsgs := perSessionMsgs.filter fun m => m.role == some "user"
  let userWordCounts := userMsgs.map fun m => jsWordCount (m.content.getD "")
  let botWordCounts := (perSessionMsgs.filter fun m => m.role == some "assistant").map
    fun m => jsWordCount (m.content.getD "")
  let totalUserMessages := userMsgs.length
  let appCount := (userMsgs.filter fun m =>
    matchesAny appreciationPatterns (lowerChars (m.content.getD ""))).length
  let disCount := (userMsgs.filter fun m =>
    matchesAny dissatisfactionPatterns (lowerChars (m.content.getD ""))).length
  let taggedTags := (sessions.filter fun s => s.tags ≠ []).flatMap (·.tags)
  { totalSessions := sessions.length
    experimentsCount := (((sessions.map fun s => s.experiment.bind (·.id)).filterMap
      fun o => if truthyStr o then o else none).dedup).length
    teamsCount := (((sessions.map fun s => s.team.bind (·.slug)).filterMap
      fun o => if truthyStr o then o else none).dedup).length
    sessionsWithMessages := (sessions.filter fun s =>
      (jsObjGet map (jsKeyOf s.id)).truthy).length
    totalMessages := perSessionMsgs.length
    medianUserWords := if userWordCounts ≠ [] then medianQ userWordCounts else 0
    medianBotWords := if botWordCounts ≠ [] then medianQ botWordCounts else 0
    annotatedSessions := (sessions.filter fun s => s.tags ≠ []).length
    appreciationCount := appCount
    dissatisfactionCount := disCount
    appreciationPercentage :=
      if totalUserMessages > 0 then (appCount : ℚ) / totalUserMessages * 100 else 0
    dissatisfactionPercentage :=
      if totalUserMessages > 0 then (disCount : ℚ) / totalUserMessages * 100 else 0
    coachingAnnotations := (taggedTags.filter fun t =>
      containsSubstr "coaching" (lowerChars (Tag.name t))).length
    botPerformanceGood := (taggedTags.filter fun t => Tag.name t == "bot_performance_good").length }

/-! ## Embedded session data and the JS filter
(`_get_sessions_data_json` and `updateFilters`) -/

/-- One entry of `allSessionsData` as serialized by
`DashboardGenerator._get_sessions_data_json`: the nominal
`experiment.version_number` is *replaced* by the resolved version from
`_extract_version_from_session`. -/
structure EmbSession where
  id : String
  expId : String
  expName : String
  version_number : Int
  teamSlug : String
  teamName : String
  tags : List Tag
  created_at : String
deriving Repr, DecidableEq

/-- Serialization of one session by `_get_sessions_data_json`. -/
def embedSession (map : List (String × RawBundle)) (s : RawSession) : EmbSession :=
  { id := s.id.getD ""
    expId := match s.experiment with
      | some e => e.id.getD ""
      | none => ""
    expName := match s.experiment with
      | some e => e.name.getD ""
      | none => ""
    version_number := extractVersionFromSession map s
    teamSlug := match s.team with
      | some t => t.slug.getD ""
      | none => ""
    teamName := match s.team with
      | some t => t.name.getD ""
      | none => ""
    tags := s.tags
    created_at := s.created_at.getD "" }

/-- `allSessionsData`: every session serialized against the map built
from the full bundle list. -/
def embedSessions (sessions : List RawSession) (messages : List RawBundle) :
    List EmbSession :=
  sessions.map (embedSession (buildSessionMessagesMap messages))

/-- The client-side filter state: the `selectedExperiments` set and
the `selectedVersions` map from experiment id to a set of versions. -/
structure FilterState where
  selectedExperiments : List String
  selectedVersions : List (String × List Int)
deriving Repr, DecidableEq

/-- The predicate of `updateFilters`'s `allSessionsData.filter`:
empty experiment selection rejects everything; the version compared is
`session.experiment?.version_number || 1` (JS falsy coercion, so a
stored `0` is compared as `1`); a missing or empty version set for the
session's experiment rejects the session. -/
def sessionPassesFilter (st : FilterState) (s : EmbSession) : Bool :=
  let version : Int := if s.version_number = 0 then 1 else s.version_number
  if st.selectedExperiments.isEmpty then false
  else if st.selectedExperiments.contains s.expId then
    match lookupAssoc st.selectedVersions s.expId with
    | none => false
    | some vs => if vs.isEmpty then false else vs.contains version
  else false

/-- `updateFilters`: the filtered session list. -/
def updateFiltersSessions (st : FilterState) (sessions : List EmbSession) :
    List EmbSession :=
  sessions.filter (sessionPassesFilter st)

/-! ## The normalizer (src/models.py) -/

/-- `timestamp.replace('Z', '+00:00')`: since the pattern is the
single character `Z`, substring replacement is per-character
replacement. -/
def replaceZ (s : String) : String :=
  String.mk (s.toList.flatMap fun c => if c = 'Z' then "+00:00".toList else [c])

/-- Model of the domain of `datetime.fromisoformat`: a `YYYY-MM-DD`
date prefix (digits and dashes, then end or a `T`/space separator).
The development only depends on which records parse at all — in
particular that the empty string of a missing timestamp fails — not on
the finer points of the ISO grammar, which this model simplifies. -/
def isIsoLike (s : String) : Bool :=
  match s.toList with
  | y1 :: y2 :: y3 :: y4 :: '-' :: m1 :: m2 :: '-' :: d1 :: d2 :: rest =>
    [y1, y2, y3, y4, m1, m2, d1, d2].all Char.isDigit &&
      (match rest with
       | [] => true
       | c :: _ => c = 'T' || c = ' ')
  | _ => false

/-- `datetime.fromisoformat(s.replace('Z', '+00:00'))`, returning the
normalized timestamp string on success. -/
def parseDatetimePy (s : String) : Option String :=
  let t := replaceZ s
  if isIsoLike t then some t else none

/-- Normalized `Team` entity. -/
structure Team where
  name : String
  slug : String
deriving Repr, DecidableEq

/-- `Team.from_api_data`. -/
def Team.from_api_data (d : RawTeam) : Team :=
  { name := d.name.getD "", slug := d.slug.getD "" }

/-- Normalized `ExperimentVersion` entity. -/
structure ExperimentVersion where
  name : String
  version_number : Int
  is_default_version : Bool
  version_description : String
deriving Repr, DecidableEq

/-- `ExperimentVersion.from_api_data`. -/
def ExperimentVersion.from_api_data (d : RawExpVersion) : ExperimentVersion :=
  { name := d.name.getD ""
    version_number := d.version_number.getD 0
    is_default_version := d.is_default_version.getD false
    version_description := d.version_description.getD "" }

/-- Normalized `Experiment` entity. -/
structure Experiment where
  id : String
  name : String
  url : String
  version_number : Int
  versions : List ExperimentVersion
deriving Repr, DecidableEq

/-- `Experiment.from_api_data`. -/
def Experiment.from_api_data (d : RawExperiment) : Experiment :=
  { id := d.id.getD ""
    name := d.name.getD ""
    url := d.url.getD ""
    version_number := d.version_number.getD 0
    versions := d.versions.map ExperimentVersion.from_api_data }

/-- Normalized `Participant` entity. -/
structure Participant where
  identifier : String
  remote_id : String
deriving Repr, DecidableEq

/-- `Participant.from_api_data`. -/
def Participant.from_api_data (d : RawParticipant) : Participant :=
  { identifier := d.identifier.getD "", remote_id := d.remote_id.getD "" }

/-- Normalized `Message` entity (metadata/attachments omitted: nothing
in the claims reads them and their defaulting cannot fail). -/
structure Message where
  role : String
  content : String
  created_at : String
  tags : List Tag
  word_count : Nat
deriving Repr, DecidableEq

/-- `Message.from_api_data`: fails exactly when the message's
`created_at` does not parse. -/
def Message.from_api_data (d : RawMessage) : Except Unit Message :=
  match parseDatetimePy (d.created_at.getD "") with
  | none => .error ()
  | some ts =>
    .ok { role := d.role.getD ""
          content := d.content.getD ""
          created_at := ts
          tags := d.tags
          word_count := pyWordCount (d.content.getD "") }

/-- Sequential parsing of a message list, failing on the first bad
message (the Python list comprehension propagates the exception). -/
def parseMessages : List RawMessage → Except Unit (List Message)
  | [] => .ok []
  | m :: ms =>
    match Message.from_api_data m with
    | .error e => .error e
    | .ok v =>
      match parseMessages ms with
      | .error e => .error e
      | .ok vs => .ok (v :: vs)

/-- The messages branch of `Session.from_api_data`: parse only when
the `messages` key is present with a non-empty (truthy) list
(`if 'messages' in data and data['messages']:`). -/
def parseSessionMessages : Option (List RawMessage) → Except Unit (Option (List Message))
  | some (m :: ms) =>
    match parseMessages (m :: ms) with
    | .error e => .error e
    | .ok vs => .ok (some vs)
  | _ => .ok none

/-- Normalized `Session` entity. -/
structure Session where
  id : String
  url : String
  team : Team
  experiment : Experiment
  participant : Participant
  created_at : String
  updated_at : String
  tags : List Tag
  messages : Option (List Message)
deriving Repr, DecidableEq

/-- `Session.from_api_data`: parses `created_at` and `updated_at`
(both required), defaults the nested objects and the
`id`/`url`/`tags` fields, and parses messages only when the key is
present and the list non-empty (`if 'messages' in data and
data['messages']:`). -/
def Session.from_api_data (d : RawSession) : Except Unit Session :=
  match parseDatetimePy (d.created_at.getD "") with
  | .none => .error ()
  | .some created =>
    match parseDatetimePy (d.updated_at.getD "") with
    | .none => .error ()
    | .some updated =>
      match parseSessionMessages d.messages with
      | .error e => .error e
      | .ok parsedMsgs =>
        .ok { id := d.id.getD ""
              url := d.url.getD ""
              team := Team.from_api_data (d.team.getD {})
              experiment := Experiment.from_api_data (d.experiment.getD {})
              participant := Participant.from_api_data (d.participant.getD {})
              created_at := created
              updated_at := updated
              tags := d.tags
              messages := parsedMsgs }

/-- The per-record try/except loop of
`DashboardGenerator._fetch_all_data`: a failing record is logged and
skipped, all others are converted in order. -/
def fetchSessions : List RawSession → List Session
  | [] => []
  | r :: rs =>
    match Session.from_api_data r with
    | .ok s => s :: fetchSessions rs
    | .error _ => fetchSessions rs

/-! ## Specification-side definitions

These restate, in independent terms, what the spec claims the code
computes; the theorems below compare them with the code-side
definitions above. -/

/-- Spec-side view of the bundle map's content: keep a bundle exactly
when its id is truthy and does not occur again later in the list
(last occurrence wins). -/
def dedupLastWins : List RawBundle → List RawBundle
  | [] => []
  | b :: bs =>
    if truthyStr b.id && !(bs.any fun b2 => b2.id == b.id) then b :: dedupLastWins bs
    else dedupLastWins bs

/-- Spec-side: the last bundle in the list bearing a given id. -/
def lastBundleFor (messages : List RawBundle) (i : String) : Option RawBundle :=
  (messages.filter fun b => b.id == some i).getLast?

/-- Spec-side: total number of messages across the (deduplicated)
bundle list. -/
def bundleMessagesTotal (messages : List RawBundle) : Nat :=
  ((dedupLastWins messages).map fun b => b.messages.length).sum

/-- Spec-side version resolution, following the claim's wording: the
integer of the first `v<digits>` tag found scanning the session's
bundle (messages in bundle order, flattened), else the nominal
`experiment.version_number` defaulting to `1`. -/
def specResolvedVersion (s : RawSession) (messages : List RawBundle) : Int :=
  let bundle : Option RawBundle :=
    match s.id with
    | some sid => lookupAssoc (buildSessionMessagesMap messages) sid
    | none => none
  let vtags : List Int :=
    match bundle with
    | some b =>
      (b.messages.flatMap (·.tags)).filterMap fun t =>
        match t with
        | .str str => vTagValue str
        | .obj _ => none
    | none => []
  match vtags.head? with
  | some v => v
  | none =>
    match s.experiment with
    | some e => e.version_number.getD 1
    | none => 1

/-- Spec-side (amended) filter predicate: non-empty experiment
selection, the session's experiment id selected, and the selected
version set of that experiment containing the session's resolved
version — with a resolved version of `0` coerced to `1`, as the JS
`|| 1` does. -/
def specPassesAmended (st : FilterState) (s : RawSession)
    (messages : List RawBundle) : Bool :=
  let rv := specResolvedVersion s messages
  let rv1 : Int := if rv = 0 then 1 else rv
  let expId :=
    match s.experiment with
    | some e => e.id.getD ""
    | none => ""
  !st.selectedExperiments.isEmpty &&
    st.selectedExperiments.contains expId &&
    (match lookupAssoc st.selectedVersions expId with
     | some vs => !vs.isEmpty && vs.contains rv1
     | none => false)

/-! ## Proof infrastructure -/

/-- Total message count over a session-messages map. -/
def mapSum (m : List (String × RawBundle)) : Nat :=
  (m.map fun p => p.2.messages.length).sum

/-- Whether some bundle in the list bears the given id. -/
def hasId (messages : List RawBundle) (i : String) : Bool :=
  messages.any fun b => b.id == some i

/-! ## Concrete fixtures used by counterexamples and witnesses -/

/-- A bundle whose id matches no session in the empty session list. -/
def orphanBundle : RawBundle :=
  { id := some "s1", messages := [{ role := some "user", content := some "hi" }] }

/-- A session whose bundle carries the version tag `v0`. -/
def sessionV0 : RawSession :=
  { id := some "s1"
    experiment := some { id := some "e1", name := some "E", version_number := some 3 } }

/-- The bundle of `sessionV0`, tagging the conversation with `v0`. -/
def bundleV0 : RawBundle :=
  { id := some "s1", messages := [{ tags := [.str "v0"] }] }

/-- Filter state selecting experiment `e1` with version set `{1}`. -/
def stateV1 : FilterState :=
  { selectedExperiments := ["e1"], selectedVersions := [("e1", [1])] }

/-- Session whose bundle carries tag `v7` while the nominal version is 3. -/
def sessionV7 : RawSession :=
  { id := some "s1"
    experiment := some { id := some "e1", name := some "E", version_number := some 3 } }

/-- The bundle of `sessionV7`. -/
def bundleV7 : RawBundle :=
  { id := some "s1", messages := [{ tags := [.str "v7"] }] }

/-- Session with no bundle and nominal version 5. -/
def sessionV5 : RawSession :=
  { id := some "s2"
    experiment := some { id := some "e1", name := some "E", version_number := some 5 } }

/-- A bundle with one user message matching both sentiment categories
and one matching neither. -/
def bundleBoth : RawBundle :=
  { id := some "s1"
    messages := [{ role := some "user", content := some "thank you this is wrong" },
                 { role := some "user", content := some "hello there" }] }

/-- A bundle whose single user message matches several appreciation
patterns, several times. -/
def bundleManyThanks : RawBundle :=
  { id := some "s1"
    messages := [{ role := some "user",
                   content := some "thanks thanks great great perfect" }] }

/-- A bundle whose user messages contain the frustration/confusion
word families that the spec says the dissatisfaction classifier
matches. -/
def bundleFrustrated : RawBundle :=
  { id := some "s1"
    messages := [{ role := some "user", content := some "i am frustrated" },
                 { role := some "user", content := some "total confusion here" },
                 { role := some "user", content := some "this is confusing" },
                 { role := some "user", content := some "i was frustrated and confused" }] }

/-- A session carrying an object-shaped (`{name: …}`) tag. -/
def sessionObjTag : RawSession :=
  { id := some "s1", tags := [.obj (some "safe")] }

/-- A raw record with a parseable `created_at` and nothing else. -/
def recordOnlyCreated : RawSession :=
  { created_at := some "2024-01-01T00:00:00+00:00" }

/-- A raw record with parseable `created_at` and `updated_at` and
nothing else. -/
def recordBothTimestamps : RawSession :=
  { created_at := some "2024-01-01T00:00:00+00:00"
    updated_at := some "2024-01-02T00:00:00Z" }

/-- A record with no `created_at` at all. -/
def recordNoCreated : RawSession :=
  { id := some "r2", updated_at := some "2024-01-02T00:00:00Z" }

/-- A session with two coaching tags (the JS counts 2 coaching
annotations here, the Python counts 1). -/
def sessionTwoCoaching : RawSession :=
  { id := some "s1", tags := [.str "coaching_good", .str "coaching_bad"] }

/-- A bundle with an untruthy (empty) id. -/
def bundleNoId : RawBundle :=
  { id := some "", messages := [{ role := some "user", content := some "hi" }] }

/-! ## Supporting lemmas -/

theorem truthyStr_eq_some (o : Option String) (h : truthyStr o = true) :
    o = some (o.getD "") ∧ o.getD "" ≠ "" := by
  cases o with
  | none => simp [truthyStr] at h
  | some s => simpa [truthyStr] using h

theorem lookupAssoc_setAssoc {α : Type} (m : List (String × α)) (k : String) (v : α)
    (j : String) :
    lookupAssoc (setAssoc m k v) j = if j = k then some v else lookupAssoc m j := by
  induction m with
  | nil =>
    by_cases h : j = k
    · subst h; simp [setAssoc, lookupAssoc]
    · have h' : ¬(k = j) := fun hh => h hh.symm
      simp [setAssoc, lookupAssoc, h, h']
  | cons p ps ih =>
    simp only [setAssoc]
    by_cases hp : p.1 = k
    · rw [if_pos hp]
      by_cases hj : j = k
      · subst hj
        simp [lookupAssoc, hp]
      · have hpj : ¬(p.1 = j) := by rw [hp]; exact fun hh => hj hh.symm
        simp [lookupAssoc, hpj, hj]
    · rw [if_neg hp]
      by_cases hpj : p.1 = j
      · have hj : ¬(j = k) := fun hh => hp (hpj.trans hh)
        simp [lookupAssoc, hpj, hj]
      · simp [lookupAssoc, hpj, ih]

/-- The step function of `_build_session_messages_map`'s loop. -/
theorem lookup_buildStep_empty (m : List (String × RawBundle)) (b : RawBundle)
    (h : lookupAssoc m "" = none) :
    lookupAssoc (if truthyStr b.id then setAssoc m (b.id.getD "") b else m) "" = none := by
  by_cases ht : truthyStr b.id
  · obtain ⟨-, hne⟩ := truthyStr_eq_some b.id ht
    rw [if_pos ht, lookupAssoc_setAssoc, if_neg (fun hh => hne hh.symm), h]
  · rwa [if_neg ht]

theorem lookup_foldl_build_empty (msgs : List RawBundle)
    (m : List (String × RawBundle)) (h : lookupAssoc m "" = none) :
    lookupAssoc
      (msgs.foldl (fun m b =>
        if truthyStr b.id then setAssoc m (b.id.getD "") b else m) m) "" = none := by
  induction msgs generalizing m with
  | nil => simpa using h
  | cons b bs ih =>
    simp only [List.foldl_cons]
    exact ih _ (lookup_buildStep_empty m b h)

/-- The session-messages map has no entry for the empty id. -/
theorem buildMap_lookup_empty (msgs : List RawBundle) :
    lookupAssoc (buildSessionMessagesMap msgs) "" = none := by
  exact lookup_foldl_build_empty msgs [] rfl

theorem lookup_foldl_build_last (msgs : List RawBundle)
    (m : List (String × RawBundle)) (i : String) (hi : i ≠ "") :
    lookupAssoc
      (msgs.foldl (fun m b =>
        if truthyStr b.id then setAssoc m (b.id.getD "") b else m) m) i =
      (match (msgs.filter fun b => b.id == some i).getLast? with
       | some b => some b
       | none => lookupAssoc m i) := by
  induction msgs generalizing m with
  | nil => simp
  | cons b bs ih =>
    simp only [List.foldl_cons, List.filter_cons]
    cases hbi : b.id == some i with
    | true =>
      have hid : b.id = some i := by simpa using hbi
      have ht : truthyStr b.id = true := by simp [hid, truthyStr, hi]
      have hgd : b.id.getD "" = i := by simp [hid]
      simp only [hbi, if_true, ht, hgd]
      rw [ih (setAssoc m i b)]
      cases hlast : (bs.filter fun b => b.id == some i).getLast? with
      | some b' =>
        have hcons : (b :: bs.filter fun b => b.id == some i).getLast? = some b' := by
          cases hf : bs.filter fun b => b.id == some i with
          | nil => rw [hf] at hlast; simp at hlast
          | cons x xs => rw [hf] at hlast; rw [List.getLast?_cons_cons, hlast]
        rw [hcons]
      | none =>
        have hf : (bs.filter fun b => b.id == some i) = [] :=
          List.getLast?_eq_none_iff.mp hlast
        rw [hf]
        show lookupAssoc (setAssoc m i b) i = some b
        rw [lookupAssoc_setAssoc, if_pos rfl]
    | false =>
      simp only [hbi, Bool.false_eq_true, if_false]
      cases ht : truthyStr b.id with
      | true =>
        obtain ⟨hid, hne⟩ := truthyStr_eq_some b.id ht
        have hki : b.id.getD "" ≠ i := by
          intro hh
          rw [hh] at hid
          rw [hid] at hbi
          simp at hbi
        simp only [ht, if_true]
        rw [ih (setAssoc m (b.id.getD "") b)]
        cases (bs.filter fun b => b.id == some i).getLast? with
        | some b' => rfl
        | none =>
          show lookupAssoc (setAssoc m (b.id.getD "") b) i = lookupAssoc m i
          rw [lookupAssoc_setAssoc, if_neg (fun hh => hki hh.symm)]
      | false =>
        simp only [ht, Bool.false_eq_true, if_false]
        exact ih m

/-- The map's entry for a non-empty id is the *last* bundle in the
list bearing that id. -/
theorem buildMap_lookup_last (msgs : List RawBundle) (i : String) (hi : i ≠ "") :
    lookupAssoc (buildSessionMessagesMap msgs) i = lastBundleFor msgs i := by
  rw [buildSessionMessagesMap, lookup_foldl_build_last msgs [] i hi, lastBundleFor]
  cases (msgs.filter fun b => b.id == some i).getLast? with
  | some b => rfl
  | none => rfl

theorem mem_setAssoc {α : Type} (m : List (String × α)) (k : String) (v : α)
    (x : String × α) (hx : x ∈ setAssoc m k v) : x ∈ m ∨ x = (k, v) := by
  induction m with
  | nil => simp [setAssoc] at hx; simp [hx]
  | cons p ps ih =>
    simp only [setAssoc] at hx
    by_cases hp : p.1 = k
    · rw [if_pos hp] at hx
      rcases List.mem_cons.mp hx with h | h
      · right; rw [h, hp]
      · left; exact List.mem_cons_of_mem _ h
    · rw [if_neg hp] at hx
      rcases List.mem_cons.mp hx with h | h
      · left; exact h ▸ List.mem_cons_self _ _
      · rcases ih h with h' | h'
        · left; exact List.mem_cons_of_mem _ h'
        · right; exact h'

theorem mem_keys_setAssoc {α : Type} (m : List (String × α)) (k : String) (v : α)
    (j : String) (h : j ∈ (setAssoc m k v).map Prod.fst) :
    j ∈ m.map Prod.fst ∨ j = k := by
  rcases List.mem_map.mp h with ⟨x, hx, hj⟩
  rcases mem_setAssoc m k v x hx with h' | h'
  · left; exact hj ▸ List.mem_map_of_mem Prod.fst h'
  · right; rw [← hj, h']

theorem nodup_keys_setAssoc {α : Type} (m : List (String × α)) (k : String) (v : α)
    (h : (m.map Prod.fst).Nodup) : ((setAssoc m k v).map Prod.fst).Nodup := by
  induction m with
  | nil => simp [setAssoc]
  | cons p ps ih =>
    simp only [setAssoc]
    simp only [List.map_cons, List.nodup_cons] at h
    by_cases hp : p.1 = k
    · rw [if_pos hp]
      simp only [List.map_cons, List.nodup_cons]
      exact ⟨h.1, h.2⟩
    · rw [if_neg hp]
      simp only [List.map_cons, List.nodup_cons]
      refine ⟨fun hmem => ?_, ih h.2⟩
      rcases mem_keys_setAssoc ps k v p.1 hmem with h' | h'
      · exact h.1 h'
      · exact hp h'

/-- Dropping a key that the filter rejects: filtering after a
`setAssoc` on that key is filtering the original map. -/
theorem filter_setAssoc_drop (m : List (String × RawBundle)) (k : String) (v : RawBundle)
    (q : String → Bool) (hq : q k = false) :
    (setAssoc m k v).filter (fun p => q p.1) = m.filter (fun p => q p.1) := by
  induction m with
  | nil => simp [setAssoc, hq]
  | cons p ps ih =>
    simp only [setAssoc]
    by_cases hp : p.1 = k
    · rw [if_pos hp]
      simp [List.filter_cons, hp, hq]
    · rw [if_neg hp]
      simp only [List.filter_cons]
      cases hqp : q p.1 <;> simp [hqp, ih]

/-- Keeping the `setAssoc` key: the filtered sum gains exactly the new
value, and the old entry under that key is excluded. -/
theorem mapSum_filter_setAssoc_keep (m : List (String × RawBundle)) (k : String)
    (v : RawBundle) (q : String → Bool) (hq : q k = true)
    (hnd : (m.map Prod.fst).Nodup) :
    mapSum ((setAssoc m k v).filter fun p => q p.1) =
      mapSum (m.filter fun p => if p.1 = k then false else q p.1) + v.messages.length := by
  induction m with
  | nil => simp [setAssoc, mapSum, hq]
  | cons p ps ih =>
    simp only [List.map_cons, List.nodup_cons] at hnd
    simp only [setAssoc]
    by_cases hp : p.1 = k
    · rw [if_pos hp]
      have hqp : q p.1 = true := by rw [hp]; exact hq
      have hfc : ps.filter (fun p => if p.1 = k then false else q p.1) =
          ps.filter (fun p => q p.1) := by
        apply List.filter_congr
        intro x hx
        have hxk : ¬(x.1 = k) := by
          intro hh
          exact hnd.1 (hp ▸ hh ▸ List.mem_map_of_mem Prod.fst hx)
        rw [if_neg hxk]
      have e1 : ((p.1, v) :: ps).filter (fun x => q x.1) =
          (p.1, v) :: ps.filter (fun x => q x.1) := by
        simp [List.filter_cons, hp, hq]
      have e2 : ((p :: ps).filter fun x => if x.1 = k then false else q x.1) =
          ps.filter (fun x => if x.1 = k then false else q x.1) := by
        simp [List.filter_cons, hp]
      rw [e1, e2, hfc]
      simp only [mapSum, List.map_cons, List.sum_cons]
      omega
    · rw [if_neg hp]
      have epred : (if p.1 = k then false else q p.1) = q p.1 := if_neg hp
      cases hqp : q p.1 with
      | true =>
        have e1 : (p :: setAssoc ps k v).filter (fun x => q x.1) =
            p :: (setAssoc ps k v).filter (fun x => q x.1) := by
          simp [List.filter_cons, hqp]
        have e2 : ((p :: ps).filter fun x => if x.1 = k then false else q x.1) =
            p :: ps.filter (fun x => if x.1 = k then false else q x.1) := by
          simp [List.filter_cons, hp, hqp]
        rw [e1, e2]
        have h3 := ih hnd.2
        simp only [mapSum, List.map_cons, List.sum_cons] at h3 ⊢
        omega
      | false =>
        have e1 : (p :: setAssoc ps k v).filter (fun x => q x.1) =
            (setAssoc ps k v).filter (fun x => q x.1) := by
          simp [List.filter_cons, hqp]
        have e2 : ((p :: ps).filter fun x => if x.1 = k then false else q x.1) =
            ps.filter (fun x => if x.1 = k then false else q x.1) := by
          simp [List.filter_cons, hp, hqp]
        rw [e1, e2]
        exact ih hnd.2

/-- Core accounting of `_build_session_messages_map`: the total
message count over the built map is the count over the accumulator's
surviving entries plus the count over the deduplicated (last-wins)
tail of the bundle list. -/
theorem mapSum_foldl_build (msgs : List RawBundle) (m : List (String × RawBundle))
    (hnd : (m.map Prod.fst).Nodup) (hne : ∀ p ∈ m, p.1 ≠ "") :
    mapSum (msgs.foldl (fun m b =>
      if truthyStr b.id then setAssoc m (b.id.getD "") b else m) m) =
      mapSum (m.filter fun p => !(hasId msgs p.1)) + bundleMessagesTotal msgs := by
  induction msgs generalizing m with
  | nil =>
    simp [hasId, bundleMessagesTotal, dedupLastWins, mapSum]
  | cons b bs ih =>
    simp only [List.foldl_cons]
    cases ht : truthyStr b.id with
    | true =>
      obtain ⟨hid, hk⟩ := truthyStr_eq_some b.id ht
      simp only [ht, if_true]
      have hnd' : ((setAssoc m (b.id.getD "") b).map Prod.fst).Nodup :=
        nodup_keys_setAssoc m _ b hnd
      have hne' : ∀ p ∈ setAssoc m (b.id.getD "") b, p.1 ≠ "" := by
        intro p hp
        rcases mem_setAssoc m _ b p hp with h | h
        · exact hne p h
        · rw [h]; exact hk
      rw [ih (setAssoc m (b.id.getD "") b) hnd' hne']
      cases hdup : bs.any (fun b2 => b2.id == b.id) with
      | true =>
        have hhas : hasId bs (b.id.getD "") = true := by
          rw [hasId, ← hid]; exact hdup
        have hded : bundleMessagesTotal (b :: bs) = bundleMessagesTotal bs := by
          simp [bundleMessagesTotal, dedupLastWins, ht, hdup]
        rw [filter_setAssoc_drop m (b.id.getD "") b (fun j => !hasId bs j) (by simp [hhas]), hded]
        have hfc : (m.filter fun p => !(hasId bs p.1)) =
            m.filter fun p => !(hasId (b :: bs) p.1) := by
          apply List.filter_congr
          intro x _
          by_cases hx : x.1 = b.id.getD ""
          · rw [hx, hhas]
            have h2 : hasId (b :: bs) (b.id.getD "") = true := by
              simp only [hasId, List.any_cons]
              rw [hid]
              simp
            rw [h2]
          · have : hasId (b :: bs) x.1 = hasId bs x.1 := by
              simp only [hasId, List.any_cons]
              have : (b.id == some x.1) = false := by
                rw [hid]
                simp
                exact fun hh => hx hh.symm
              rw [this]
              simp
            rw [this]
        rw [hfc]
      | false =>
        have hhas : hasId bs (b.id.getD "") = false := by
          rw [hasId, ← hid]; exact hdup
        have hded : bundleMessagesTotal (b :: bs) =
            b.messages.length + bundleMessagesTotal bs := by
          simp [bundleMessagesTotal, dedupLastWins, ht, hdup]
        rw [mapSum_filter_setAssoc_keep m (b.id.getD "") b (fun j => !hasId bs j) (by simp [hhas]) hnd, hded]
        have hfc : (m.filter fun p =>
            if p.1 = b.id.getD "" then false else !(hasId bs p.1)) =
            m.filter fun p => !(hasId (b :: bs) p.1) := by
          apply List.filter_congr
          intro x _
          by_cases hx : x.1 = b.id.getD ""
          · rw [if_pos hx]
            have h2 : hasId (b :: bs) x.1 = true := by
              simp only [hasId, List.any_cons]
              rw [hid, hx]
              simp
            rw [h2]
            rfl
          · rw [if_neg hx]
            have : hasId (b :: bs) x.1 = hasId bs x.1 := by
              simp only [hasId, List.any_cons]
              have : (b.id == some x.1) = false := by
                rw [hid]
                simp
                exact fun hh => hx hh.symm
              rw [this]
              simp
            rw [this]
        rw [hfc]
        omega
    | false =>
      simp only [ht, Bool.false_eq_true, if_false]
      rw [ih m hnd hne]
      have hded : bundleMessagesTotal (b :: bs) = bundleMessagesTotal bs := by
        simp [bundleMessagesTotal, dedupLastWins, ht]
      rw [hded]
      have hfc : (m.filter fun p => !(hasId bs p.1)) =
          m.filter fun p => !(hasId (b :: bs) p.1) := by
        apply List.filter_congr
        intro x hx
        have hxne : x.1 ≠ "" := hne x hx
        have : (b.id == some x.1) = false := by
          cases hbid : b.id with
          | none => rfl
          | some s =>
            have : s = "" := by
              rw [hbid] at ht
              simpa [truthyStr] using ht
            rw [this]
            simp
            exact fun hh => hxne hh.symm
        simp only [hasId, List.any_cons, this]
        simp
      rw [hfc]

/-- Total message count over the whole session-messages map. -/
theorem mapSum_buildMap (msgs : List RawBundle) :
    mapSum (buildSessionMessagesMap msgs) = bundleMessagesTotal msgs := by
  rw [buildSessionMessagesMap, mapSum_foldl_build msgs [] (by simp) (by simp)]
  simp [mapSum]

theorem foldl_add_eq_sum (l : List Nat) (n : Nat) : l.foldl (· + ·) n = n + l.sum := by
  induction l generalizing n with
  | nil => simp
  | cons x xs ih => simp [List.foldl_cons, ih, List.sum_cons]; omega

/-- Bundles with an empty message list contribute nothing, so the
filtered sum in `_calculate_message_stats` is the full map sum. -/
theorem mapSum_filter_nonempty (map : List (String × RawBundle)) :
    mapSum (map.filter fun p => p.2.messages ≠ []) = mapSum map := by
  induction map with
  | nil => rfl
  | cons p ps ih =>
    by_cases hp : p.2.messages = []
    · have e : ((p :: ps).filter fun p => p.2.messages ≠ []) =
          ps.filter fun p => p.2.messages ≠ [] := by
        simp [List.filter_cons, hp]
      rw [e, ih]
      simp [mapSum, hp]
    · have e : ((p :: ps).filter fun p => p.2.messages ≠ []) =
          p :: ps.filter fun p => p.2.messages ≠ [] := by
        simp [List.filter_cons, hp]
      rw [e]
      simp only [mapSum, List.map_cons, List.sum_cons] at ih ⊢
      omega

/-- `total_messages` of the Python message stats is the full map
sum. -/
theorem messageStats_total (map : List (String × RawBundle)) :
    (messageStatsOfMap map).total_messages = mapSum map := by
  show ((map.filter fun p => p.2.messages ≠ []).map
    fun p => p.2.messages.length).foldl (· + ·) 0 = mapSum map
  rw [foldl_add_eq_sum]
  show 0 + mapSum (map.filter fun p => p.2.messages ≠ []) = mapSum map
  rw [Nat.zero_add, mapSum_filter_nonempty]

theorem countOf_bumpCount (m : List (String × Nat)) (k j : String) :
    countOf (bumpCount m k) j = countOf m j + if j = k then 1 else 0 := by
  induction m with
  | nil =>
    by_cases h : j = k
    · subst h; simp [bumpCount, countOf]
    · have h' : ¬(k = j) := fun hh => h hh.symm
      simp [bumpCount, countOf, h, h']
  | cons p ps ih =>
    simp only [bumpCount]
    by_cases hp : p.1 = k
    · rw [if_pos hp]
      by_cases hj : j = k
      · subst hj
        simp [countOf, hp]
      · have hpj : ¬(p.1 = j) := by rw [hp]; exact fun hh => hj hh.symm
        simp [countOf, hpj, hj]
    · rw [if_neg hp]
      by_cases hpj : p.1 = j
      · have hj : ¬(j = k) := fun hh => hp (hpj.trans hh)
        simp [countOf, hpj, hj]
      · simp [countOf, hpj, ih]

/-- A `defaultdict(int)` counting loop reads back as an occurrence
count. -/
theorem countOf_foldl_bump {β : Type} (l : List β) (P : β → Bool) (f : β → String)
    (m : List (String × Nat)) (k : String) :
    countOf (l.foldl (fun m t => if P t then bumpCount m (f t) else m) m) k =
      countOf m k + (l.filter fun t => P t && f t == k).length := by
  induction l generalizing m with
  | nil => simp
  | cons t ts ih =>
    simp only [List.foldl_cons, List.filter_cons]
    cases hP : P t with
    | true =>
      simp only [hP, Bool.true_and, if_true]
      rw [ih (bumpCount m (f t)), countOf_bumpCount]
      cases hbk : f t == k with
      | true =>
        have hfk : f t = k := by simpa using hbk
        simp [hbk, if_pos hfk.symm]
        omega
      | false =>
        have hfk : ¬(f t = k) := by simpa using hbk
        simp [hbk, if_neg (fun hh : k = f t => hfk hh.symm)]
    | false =>
      simp only [hP, Bool.false_and, Bool.false_eq_true, if_false]
      exact ih m

theorem firstVTagIn_eq (ts : List Tag) :
    firstVTagIn ts = (ts.filterMap fun t =>
      match t with
      | .str s => vTagValue s
      | .obj _ => none).head? := by
  induction ts with
  | nil => rfl
  | cons t ts ih =>
    cases t with
    | str s =>
      rw [firstVTagIn]
      cases hv : vTagValue s with
      | some v => simp [List.filterMap_cons, hv]
      | none => simp [List.filterMap_cons, hv, ih]
    | obj n =>
      rw [firstVTagIn]
      simp [List.filterMap_cons, ih]

theorem firstVersionTag_eq (ms : List RawMessage) :
    firstVersionTag ms = ((ms.flatMap (fun mm => mm.tags)).filterMap fun t =>
      match t with
      | .str s => vTagValue s
      | .obj _ => none).head? := by
  induction ms with
  | nil => rfl
  | cons m ms ih =>
    rw [firstVersionTag, firstVTagIn_eq]
    simp only [List.flatMap_cons, List.filterMap_append]
    cases hl : m.tags.filterMap fun t =>
        match t with
        | .str s => vTagValue s
        | .obj _ => none with
    | nil => simp [ih]
    | cons x xs => simp

/-- `calculate_all_metrics` factors through the cached map. -/
theorem calculateAllMetrics_eq (sessions : List RawSession) (messages : List RawBundle) :
    calculateAllMetrics sessions messages =
      calcFromParts sessions (buildSessionMessagesMap messages) := rfl

/-- The code's version extraction agrees with the spec-side resolution
rule. -/
theorem extractVersion_eq_spec (s : RawSession) (msgs : List RawBundle) :
    extractVersionFromSession (buildSessionMessagesMap msgs) s =
      specResolvedVersion s msgs := by
  cases hsid : s.id with
  | none => simp [extractVersionFromSession, specResolvedVersion, hsid, nominalVersion]
  | some sid =>
    by_cases hempty : sid = ""
    · subst hempty
      simp [extractVersionFromSession, specResolvedVersion, hsid,
        buildMap_lookup_empty, nominalVersion]
    · simp only [extractVersionFromSession, specResolvedVersion, hsid, if_neg hempty]
      cases hlook : lookupAssoc (buildSessionMessagesMap msgs) sid with
      | none => simp [nominalVersion]
      | some b =>
        rw [← firstVersionTag_eq]
        cases hft : firstVersionTag b.messages with
        | none => simp [hft, nominalVersion]
        | some v => simp [hft]

theorem parseMessages_isOk (ms : List RawMessage) :
    (parseMessages ms).isOk =
      ms.all fun mm => (parseDatetimePy (mm.created_at.getD "")).isSome := by
  induction ms with
  | nil => rfl
  | cons m ms ih =>
    rw [parseMessages]
    unfold Message.from_api_data
    cases hc : parseDatetimePy (m.created_at.getD "") with
    | none =>
      simp only [hc, Except.isOk, List.all_cons, Option.isSome_none, Bool.false_and]
      rfl
    | some t =>
      simp only [hc, List.all_cons, Option.isSome_some, Bool.true_and]
      cases hp : parseMessages ms with
      | error e =>
        rw [hp] at ih
        exact ih
      | ok vs =>
        rw [hp] at ih
        exact ih

/-! ## Claim theorems -/

/-- C1.  The metrics engine is pure and deterministic: re-running
`calculate_all_metrics` on the same calculator object returns the same
bundle and leaves the object unchanged, and computing over a filtered
subset of a larger dataset is the same as computing over that subset
supplied directly. -/
theorem claim1_engine_pure (sessions : List RawSession) (messages : List RawBundle) :
    (∀ st : MetricsCalculator, st = MetricsCalculator.init sessions messages →
      st.calculate_all_metrics.1 = (st.calculate_all_metrics.2).calculate_all_metrics.1 ∧
      st.calculate_all_metrics.2 = st) ∧
    (∀ (full : List RawSession) (fullM : List RawBundle) (p : RawSession → Bool)
        (q : RawBundle → Bool), sessions = full.filter p → messages = fullM.filter q →
      calculateAllMetrics sessions messages =
        calculateAllMetrics (full.filter p) (fullM.filter q)) := by
  constructor
  · intro st _
    exact ⟨rfl, rfl⟩
  · intro full fullM p q hs hm
    rw [hs, hm]

/-- Witness for C1 at a concrete dataset and filter. -/
theorem claim1_engine_pure_witness :
    calculateAllMetrics [sessionV7] [bundleV7] =
      calculateAllMetrics ([sessionV7, sessionV5].filter fun s => s.id == some "s1")
        ([bundleV7].filter fun _ => true) :=
  (claim1_engine_pure [sessionV7] [bundleV7]).2 [sessionV7, sessionV5] [bundleV7]
    (fun s => s.id == some "s1") (fun _ => true) (by decide) (by decide)

/-- C10.  All metrics depend on the bundle list only through the
session-id-to-bundle map; that map keeps, per non-empty id, the last
bundle bearing it; and a bundle with a falsy id has no effect on the
engine's output. -/
theorem claim10_bundle_map (sessions : List RawSession) :
    (∀ m1 m2 : List RawBundle,
      buildSessionMessagesMap m1 = buildSessionMessagesMap m2 →
      calculateAllMetrics sessions m1 = calculateAllMetrics sessions m2) ∧
    (∀ (msgs : List RawBundle) (i : String), i ≠ "" →
      lookupAssoc (buildSessionMessagesMap msgs) i = lastBundleFor msgs i) ∧
    (∀ (pre post : List RawBundle) (b : RawBundle), truthyStr b.id = false →
      calculateAllMetrics sessions (pre ++ b :: post) =
        calculateAllMetrics sessions (pre ++ post)) := by
  refine ⟨?_, ?_, ?_⟩
  · intro m1 m2 h
    rw [calculateAllMetrics_eq, calculateAllMetrics_eq, h]
  · intro msgs i hi
    exact buildMap_lookup_last msgs i hi
  · intro pre post b hb
    rw [calculateAllMetrics_eq, calculateAllMetrics_eq]
    have hmap : buildSessionMessagesMap (pre ++ b :: post) =
        buildSessionMessagesMap (pre ++ post) := by
      rw [buildSessionMessagesMap, buildSessionMessagesMap, List.foldl_append,
        List.foldl_append, List.foldl_cons]
      simp only [hb, Bool.false_eq_true, if_false]
    rw [hmap]

/-- Witness for C10: deleting a falsy-id bundle changes nothing. -/
theorem claim10_bundle_map_witness :
    calculateAllMetrics [] [bundleNoId] = calculateAllMetrics [] [] :=
  (claim10_bundle_map []).2.2 [] [] bundleNoId (by decide)

/-- C5, counterexample: a bundle whose id matches no session in the
input still contributes its message to `total_messages` (the claim
predicts 0 here). -/
theorem claim5_counterexample :
    (calculateAllMetrics [] [orphanBundle]).toOption.map
      (fun m => m.message_stats.total_messages) = some 1 ∧
    (calculateAllMetrics [] [orphanBundle]).toOption.map
      (fun m => m.message_stats.total_messages) ≠ some 0 := by
  constructor
  · decide
  · decide

/-- C5, amended: `message_stats` is a function of the bundle map only
(independent of the session list), and `total_messages` counts the
messages of every truthy-id, last-wins-deduplicated bundle — matching
a session or not. -/
theorem claim5_amended (sessions : List RawSession) (messages : List RawBundle) :
    (match calculateAllMetrics sessions messages with
     | .ok m => m.message_stats = messageStatsOfMap (buildSessionMessagesMap messages)
     | .error _ => True) ∧
    (messageStatsOfMap (buildSessionMessagesMap messages)).total_messages =
      bundleMessagesTotal messages := by
  constructor
  · rw [calculateAllMetrics_eq]
    unfold calcFromParts
    cases annotationStats sessions with
    | error e => trivial
    | ok ann => rfl
  · rw [messageStats_total, mapSum_buildMap]

/-- C4.  The version reported per session is resolved from the first
`v<digits>` message tag in bundle order, with the nominal
`experiment.version_number` (default 1) as fallback; a session tagged
`v7` with nominal version 3 reports 7 in `experiment_stats`, and a
session with no bundle and nominal version 5 reports 5. -/
theorem claim4_version_resolution :
    (∀ (s : RawSession) (msgs : List RawBundle),
      extractVersionFromSession (buildSessionMessagesMap msgs) s =
        specResolvedVersion s msgs) ∧
    (experimentStats [sessionV7] (buildSessionMessagesMap [bundleV7])).version_counts =
      [("e1", [(7, 1)])] ∧
    (experimentStats [sessionV5] (buildSessionMessagesMap [])).version_counts =
      [("e1", [(5, 1)])] := by
  refine ⟨extractVersion_eq_spec, by decide, by decide⟩

/-- C6.  Sentiment counting is per-message (a message counts at most
once per category however many patterns or occurrences match), the
two categories are independent (one message can increment both), and
the percentages are count/total*100 with 0 for an empty user-message
set. -/
theorem claim6_sentiment (messages : List RawBundle) :
    ((sentimentStatsOfMap (buildSessionMessagesMap messages)).appreciation_count ≤
      (sentimentStatsOfMap (buildSessionMessagesMap messages)).total_user_messages ∧
     (sentimentStatsOfMap (buildSessionMessagesMap messages)).dissatisfaction_count ≤
      (sentimentStatsOfMap (buildSessionMessagesMap messages)).total_user_messages) ∧
    ((sentimentStatsOfMap (buildSessionMessagesMap messages)).appreciation_percentage =
      if (sentimentStatsOfMap (buildSessionMessagesMap messages)).total_user_messages = 0
      then 0
      else ((sentimentStatsOfMap (buildSessionMessagesMap messages)).appreciation_count : ℚ) /
        ((sentimentStatsOfMap (buildSessionMessagesMap messages)).total_user_messages : ℚ) *
          100) ∧
    ((sentimentStatsOfMap (buildSessionMessagesMap messages)).dissatisfaction_percentage =
      if (sentimentStatsOfMap (buildSessionMessagesMap messages)).total_user_messages = 0
      then 0
      else ((sentimentStatsOfMap (buildSessionMessagesMap messages)).dissatisfaction_count : ℚ) /
        ((sentimentStatsOfMap (buildSessionMessagesMap messages)).total_user_messages : ℚ) *
          100) ∧
    ((sentimentStatsOfMap (buildSessionMessagesMap [bundleBoth])).appreciation_count = 1 ∧
     (sentimentStatsOfMap (buildSessionMessagesMap [bundleBoth])).dissatisfaction_count = 1 ∧
     (sentimentStatsOfMap (buildSessionMessagesMap [bundleBoth])).total_user_messages = 2) ∧
    (sentimentStatsOfMap (buildSessionMessagesMap [bundleManyThanks])).appreciation_count =
      1 := by
  refine ⟨⟨List.length_filter_le _ _, List.length_filter_le _ _⟩, ?_, ?_, by decide,
    by decide⟩
  · have e : (sentimentStatsOfMap (buildSessionMessagesMap messages)).appreciation_percentage =
        if (sentimentStatsOfMap (buildSessionMessagesMap messages)).total_user_messages > 0
        then ((sentimentStatsOfMap (buildSessionMessagesMap messages)).appreciation_count : ℚ) /
          ((sentimentStatsOfMap (buildSessionMessagesMap messages)).total_user_messages : ℚ) *
            100
        else 0 := rfl
    rw [e]
    by_cases h : (sentimentStatsOfMap (buildSessionMessagesMap messages)).total_user_messages = 0
    · rw [if_pos h, if_neg (by omega)]
    · rw [if_neg h, if_pos (by omega)]
  · have e : (sentimentStatsOfMap (buildSessionMessagesMap messages)).dissatisfaction_percentage =
        if (sentimentStatsOfMap (buildSessionMessagesMap messages)).total_user_messages > 0
        then ((sentimentStatsOfMap (buildSessionMessagesMap messages)).dissatisfaction_count : ℚ) /
          ((sentimentStatsOfMap (buildSessionMessagesMap messages)).total_user_messages : ℚ) *
            100
        else 0 := rfl
    rw [e]
    by_cases h : (sentimentStatsOfMap (buildSessionMessagesMap messages)).total_user_messages = 0
    · rw [if_pos h, if_neg (by omega)]
    · rw [if_neg h, if_pos (by omega)]

/-- C7, code evaluated at the failing input: four user messages
containing "frustrated" / "confusion" / "confusing" / "confused"
yield a dissatisfaction count of 0 (the `\bfrustrat\b` and
`\bconfus\b` patterns only match the bare stems, which the third
conjunct demonstrates). -/
theorem claim7_families_not_matched :
    (sentimentStatsOfMap (buildSessionMessagesMap [bundleFrustrated])).total_user_messages =
      4 ∧
    (sentimentStatsOfMap (buildSessionMessagesMap [bundleFrustrated])).dissatisfaction_count =
      0 ∧
    matchesAny dissatisfactionPatterns (lowerChars "i am frustrat") = true := by
  refine ⟨by decide, by decide, by decide⟩

/-- C8, code evaluated at the failing input: a session carrying an
object-shaped tag makes `calculate_all_metrics` raise (the
`len(set(all_tags))` of `_calculate_annotation_stats` hits an
unhashable `dict`), while empty collections are handled fine. -/
theorem claim8_object_tags_raise :
    (calculateAllMetrics [sessionObjTag] []).toOption = none ∧
    (calculateAllMetrics [] []).toOption ≠ none := by
  refine ⟨by decide, by decide⟩

/-- C9, counterexample: a record whose `created_at` parses but whose
`updated_at` is missing is *not* converted (the claim says a
parseable `created_at` suffices). -/
theorem claim9_counterexample :
    (parseDatetimePy (recordOnlyCreated.created_at.getD "")).isSome = true ∧
    fetchSessions [recordOnlyCreated] = [] := by
  refine ⟨by decide, by decide⟩

/-- C9, amended: the batch loop converts exactly the records whose
`created_at` *and* `updated_at` parse (and, when a non-empty
`messages` list is present, whose messages' `created_at` all parse),
skipping failing records without aborting; every other field defaults
without failing, as the fully-defaulted conversion shows. -/
theorem claim9_amended (records : List RawSession) :
    fetchSessions records =
      records.filterMap (fun r => (Session.from_api_data r).toOption) ∧
    (∀ r : RawSession, (Session.from_api_data r).isOk =
      ((parseDatetimePy (r.created_at.getD "")).isSome &&
       (parseDatetimePy (r.updated_at.getD "")).isSome &&
       (match r.messages with
        | some (m :: ms) =>
          (m :: ms).all fun mm => (parseDatetimePy (mm.created_at.getD "")).isSome
        | _ => true))) ∧
    (Session.from_api_data recordBothTimestamps).toOption = some
      { id := "", url := "", team := { name := "", slug := "" }
        experiment := { id := "", name := "", url := "", version_number := 0, versions := [] }
        participant := { identifier := "", remote_id := "" }
        created_at := "2024-01-01T00:00:00+00:00"
        updated_at := "2024-01-02T00:00:00+00:00"
        tags := [], messages := none } := by
  refine ⟨?_, ?_, by decide⟩
  · induction records with
    | nil => rfl
    | cons r rs ih =>
      rw [fetchSessions]
      cases h : Session.from_api_data r with
      | ok s => simp [List.filterMap_cons, h, Except.toOption, ih]
      | error e => simp [List.filterMap_cons, h, Except.toOption, ih]
  · intro r
    unfold Session.from_api_data
    cases hc : parseDatetimePy (r.created_at.getD "") with
    | none => rfl
    | some tc =>
      cases hu : parseDatetimePy (r.updated_at.getD "") with
      | none => rfl
      | some tu =>
        cases hm : r.messages with
        | none => rfl
        | some ms =>
          cases ms with
          | nil => rfl
          | cons m0 mrest =>
            have h2 := parseMessages_isOk (m0 :: mrest)
            cases hp : parseMessages (m0 :: mrest) with
            | error e =>
              have h3 : parseSessionMessages (some (m0 :: mrest)) = .error e := by
                rw [parseSessionMessages, hp]
              rw [h3]
              rw [hp] at h2
              exact h2
            | ok vs =>
              have h3 : parseSessionMessages (some (m0 :: mrest)) = .ok (some vs) := by
                rw [parseSessionMessages, hp]
              rw [h3]
              rw [hp] at h2
              exact h2

theorem experiments_count_eq (sessions : List RawSession) :
    ((sessions.filterMap fun s =>
      match s.experiment with
      | some e => if truthyStr e.id then e.id else none
      | none => none).dedup).length =
    ((((sessions.map fun s => s.experiment.bind (·.id)).filterMap
      fun o => if truthyStr o then o else none).dedup)).length := by
  rw [List.filterMap_map]
  have he : (fun (s : RawSession) =>
      match s.experiment with
      | some e => if truthyStr e.id then e.id else none
      | none => none) =
      ((fun o => if truthyStr o then o else none) ∘ fun s : RawSession =>
        s.experiment.bind (·.id)) := by
    funext s
    simp only [Function.comp_apply]
    cases s.experiment with
    | none => rfl
    | some e => rfl
  rw [he]

theorem teams_count_eq (sessions : List RawSession) :
    ((sessions.filterMap fun s =>
      match s.team with
      | some t => if truthyStr t.slug then t.slug else none
      | none => none).dedup).length =
    ((((sessions.map fun s => s.team.bind (·.slug)).filterMap
      fun o => if truthyStr o then o else none).dedup)).length := by
  rw [List.filterMap_map]
  have he : (fun (s : RawSession) =>
      match s.team with
      | some t => if truthyStr t.slug then t.slug else none
      | none => none) =
      ((fun o => if truthyStr o then o else none) ∘ fun s : RawSession =>
        s.team.bind (·.slug)) := by
    funext s
    simp only [Function.comp_apply]
    cases s.team with
    | none => rfl
    | some t => rfl
  rw [he]

/-- When no bundle id is `__proto__`, the JS object build never
touches the prototype and its own properties are exactly the Python
map. -/
theorem buildJsMap_fold_aux (messages : List RawBundle)
    (own : List (String × RawBundle))
    (hp : ∀ b ∈ messages, b.id ≠ some "__proto__") :
    messages.foldl (fun m b =>
      if truthyStr b.id then jsObjSet m (b.id.getD "") b else m) ⟨own, none⟩ =
    ⟨messages.foldl (fun m b =>
      if truthyStr b.id then setAssoc m (b.id.getD "") b else m) own, none⟩ := by
  induction messages generalizing own with
  | nil => rfl
  | cons b bs ih =>
    simp only [List.foldl_cons]
    have hb := hp b (List.mem_cons_self b bs)
    have hp' : ∀ b2 ∈ bs, b2.id ≠ some "__proto__" :=
      fun b2 h2 => hp b2 (List.mem_cons_of_mem b h2)
    cases ht : truthyStr b.id with
    | false =>
      simp only [ht, Bool.false_eq_true, if_false]
      exact ih own hp'
    | true =>
      simp only [ht, if_true]
      have hk : b.id.getD "" ≠ "__proto__" := by
        obtain ⟨hid, -⟩ := truthyStr_eq_some b.id ht
        intro hh
        rw [hh] at hid
        exact hb hid
      simp only [jsObjSet, if_neg hk]
      exact ih (setAssoc own (b.id.getD "") b) hp'

theorem buildJsMap_no_proto (messages : List RawBundle)
    (hp : ∀ b ∈ messages, b.id ≠ some "__proto__") :
    buildJsMessagesMap messages = ⟨buildSessionMessagesMap messages, none⟩ := by
  rw [buildJsMessagesMap, buildSessionMessagesMap]
  exact buildJsMap_fold_aux messages [] hp

theorem filter_id_eq_nil (l : List RawBundle) (i : String)
    (hl : ∀ b ∈ l, b.id ≠ some i) :
    l.filter (fun b => b.id == some i) = [] := by
  induction l with
  | nil => rfl
  | cons x xs ih =>
    rw [List.filter_cons]
    have hx : (x.id == some i) = false := by
      have h1 := hl x (List.mem_cons_self x xs)
      simpa using h1
    simp only [hx, Bool.false_eq_true, if_false]
    exact ih fun b hb => hl b (List.mem_cons_of_mem x hb)

/-- The JS property read agrees with Python map membership exactly
when the session's (coerced) key collides neither with an inherited
`Object.prototype` member nor — for a missing id — with an own key
`"undefined"`, and no bundle id rewrote the prototype. -/
theorem jsLookup_truthy_eq (messages : List RawBundle) (s : RawSession)
    (hp : ∀ b ∈ messages, b.id ≠ some "__proto__")
    (hs : jsKeyOf s.id ∉ objectPrototypeProps)
    (hu : s.id = none → ∀ b ∈ messages, b.id ≠ some "undefined") :
    (jsObjGet (buildJsMessagesMap messages) (jsKeyOf s.id)).truthy =
      (match s.id with
       | some sid => (lookupAssoc (buildSessionMessagesMap messages) sid).isSome
       | none => false) := by
  rw [buildJsMap_no_proto messages hp]
  cases hid : s.id with
  | some sid =>
    rw [hid] at hs
    simp only [jsKeyOf] at hs ⊢
    cases hl : lookupAssoc (buildSessionMessagesMap messages) sid with
    | some b => simp [jsObjGet, hl, JsValue.truthy]
    | none => simp [jsObjGet, hl, hs, JsValue.truthy]
  | none =>
    have hnone : lookupAssoc (buildSessionMessagesMap messages) "undefined" = none := by
      rw [buildMap_lookup_last messages "undefined" (by decide), lastBundleFor,
        filter_id_eq_nil messages "undefined" (hu hid)]
      rfl
    have hs2 : "undefined" ∉ objectPrototypeProps := by decide
    simp [jsObjGet, jsKeyOf, hnone, hs2, JsValue.truthy]

theorem sessions_with_messages_eq (sessions : List RawSession)
    (messages : List RawBundle)
    (hp : ∀ b ∈ messages, b.id ≠ some "__proto__")
    (hs : ∀ s ∈ sessions, jsKeyOf s.id ∉ objectPrototypeProps)
    (hu : ∀ s ∈ sessions, s.id = none → ∀ b ∈ messages, b.id ≠ some "undefined") :
    (sessions.filter fun s =>
      match s.id with
      | some sid => (lookupAssoc (buildSessionMessagesMap messages) sid).isSome
      | none => false).length =
    (sessions.filter fun s =>
      (jsObjGet (buildJsMessagesMap messages) (jsKeyOf s.id)).truthy).length := by
  apply congrArg List.length
  apply List.filter_congr
  intro s hmem
  exact (jsLookup_truthy_eq messages s hp (hs s hmem) (hu s hmem)).symm

theorem annotation_count_bpg (tags : List Tag) :
    countOf (tags.foldl (fun m tag =>
      if Tag.name tag ≠ "" && !isVersionTagName (Tag.name tag) then
        bumpCount m (Tag.name tag)
      else m) []) "bot_performance_good" =
      (tags.filter fun t => Tag.name t == "bot_performance_good").length := by
  rw [countOf_foldl_bump tags
    (fun tag => Tag.name tag ≠ "" && !isVersionTagName (Tag.name tag))
    Tag.name [] "bot_performance_good"]
  simp only [countOf, Nat.zero_add]
  apply congrArg List.length
  apply List.filter_congr
  intro t _
  cases hbk : Tag.name t == "bot_performance_good" with
  | true =>
    have he : Tag.name t = "bot_performance_good" := by simpa using hbk
    rw [he]
    decide
  | false =>
    simp [hbk]

/-- C2, counterexample: on a bundle whose id matches no session, the
Python engine counts 1 total message while the JS `calculateMetrics`
counts 0, so the two implementations are not equivalent. -/
theorem claim2_counterexample :
    (calculateAllMetrics [] [orphanBundle]).toOption.map
      (fun m => m.message_stats.total_messages) = some 1 ∧
    (jsCalculateMetrics [] [orphanBundle]).totalMessages = 0 := by
  refine ⟨by decide, by decide⟩

/-- C2, amended: when every tag is a plain string (so the Python side
does not raise), no bundle id is `__proto__` (so the JS map's
prototype is untouched), no session id collides with an inherited
`Object.prototype` member, and no missing session id is paired with a
bundle id `undefined` (the JS key coercion of `undefined`), the two
implementations agree on total sessions, experiments count, teams
count, sessions with messages, annotated sessions and
bot_performance_good; the message-scope fields (total messages,
medians, sentiment) and coachingAnnotations may differ.  The last two
conjuncts show the prototype exclusions are load-bearing: the key
`constructor` reads truthy on an *empty* JS map while the Python map
has no such entry. -/
theorem claim2_amended (sessions : List RawSession) (messages : List RawBundle)
    (h : sessions.all (fun s => s.tags.all Tag.isStr) = true)
    (hp : ∀ b ∈ messages, b.id ≠ some "__proto__")
    (hsid : ∀ s ∈ sessions, jsKeyOf s.id ∉ objectPrototypeProps)
    (hu : ∀ s ∈ sessions, s.id = none → ∀ b ∈ messages, b.id ≠ some "undefined") :
    (match calculateAllMetrics sessions messages with
     | .ok m =>
       m.basic_stats.total_sessions = (jsCalculateMetrics sessions messages).totalSessions ∧
       m.basic_stats.experiments_count =
         (jsCalculateMetrics sessions messages).experimentsCount ∧
       m.basic_stats.teams_count = (jsCalculateMetrics sessions messages).teamsCount ∧
       m.basic_stats.sessions_with_messages =
         (jsCalculateMetrics sessions messages).sessionsWithMessages ∧
       m.annotation_stats.sessions_with_tags =
         (jsCalculateMetrics sessions messages).annotatedSessions ∧
       m.annotation_stats.quality_categories.bot_performance_good =
         (jsCalculateMetrics sessions messages).botPerformanceGood
     | .error _ => False) ∧
    (jsObjGet (buildJsMessagesMap []) "constructor").truthy = true ∧
    (lookupAssoc (buildSessionMessagesMap []) "constructor").isSome = false := by
  refine ⟨?_, by decide, by decide⟩
  have hall : (((sessions.filter fun s => s.tags ≠ []).flatMap fun s => s.tags).all
      Tag.isStr) = true := by
    rw [List.all_eq_true] at h ⊢
    intro t ht
    rw [List.mem_flatMap] at ht
    obtain ⟨sess, hs, htag⟩ := ht
    have h2 := h sess (List.mem_of_mem_filter hs)
    rw [List.all_eq_true] at h2
    exact h2 t htag
  rw [calculateAllMetrics_eq]
  simp only [calcFromParts, annotationStats]
  rw [if_pos hall]
  exact ⟨rfl, experiments_count_eq sessions, teams_count_eq sessions,
    sessions_with_messages_eq sessions messages hp hsid hu, rfl,
    annotation_count_bpg ((sessions.filter fun s => s.tags ≠ []).flatMap fun s => s.tags)⟩

/-- Witness for C2 at a concrete all-string-tags, collision-free
dataset. -/
theorem claim2_amended_witness :
    (match calculateAllMetrics [sessionTwoCoaching] [orphanBundle] with
     | .ok m =>
       m.basic_stats.total_sessions =
         (jsCalculateMetrics [sessionTwoCoaching] [orphanBundle]).totalSessions ∧
       m.basic_stats.experiments_count =
         (jsCalculateMetrics [sessionTwoCoaching] [orphanBundle]).experimentsCount ∧
       m.basic_stats.teams_count =
         (jsCalculateMetrics [sessionTwoCoaching] [orphanBundle]).teamsCount ∧
       m.basic_stats.sessions_with_messages =
         (jsCalculateMetrics [sessionTwoCoaching] [orphanBundle]).sessionsWithMessages ∧
       m.annotation_stats.sessions_with_tags =
         (jsCalculateMetrics [sessionTwoCoaching] [orphanBundle]).annotatedSessions ∧
       m.annotation_stats.quality_categories.bot_performance_good =
         (jsCalculateMetrics [sessionTwoCoaching] [orphanBundle]).botPerformanceGood
     | .error _ => False) ∧
    (jsObjGet (buildJsMessagesMap []) "constructor").truthy = true ∧
    (lookupAssoc (buildSessionMessagesMap []) "constructor").isSome = false :=
  claim2_amended [sessionTwoCoaching] [orphanBundle] (by decide) (by decide) (by decide)
    (by decide)

/-- C3, counterexample: a session whose bundle carries tag `v0`
resolves to version 0, yet with selection `{e1 -> {1}}` the filter
*keeps* it (`version_number || 1` coerces 0 to 1), although 0 is not
in the selected version set — so "passes iff resolved version is
selected" fails. -/
theorem claim3_counterexample :
    updateFiltersSessions stateV1 (embedSessions [sessionV0] [bundleV0]) =
      embedSessions [sessionV0] [bundleV0] ∧
    embedSessions [sessionV0] [bundleV0] ≠ [] ∧
    specResolvedVersion sessionV0 [bundleV0] = 0 ∧
    lookupAssoc stateV1.selectedVersions "e1" = some [1] ∧
    (([1] : List Int).contains 0) = false := by
  refine ⟨by decide, by decide, by decide, by decide, by decide⟩

/-- C3, amended: empty experiment selection yields the empty result
set, and a session passes the filter iff its experiment id is
selected and the selected version set of that experiment contains its
resolved version *after JS falsy coercion* (a resolved version of 0
is compared as 1); a missing or empty version set rejects the
session. -/
theorem claim3_amended (st : FilterState) (sessions : List RawSession)
    (messages : List RawBundle) :
    (st.selectedExperiments = [] →
      updateFiltersSessions st (embedSessions sessions messages) = []) ∧
    (∀ s : RawSession,
      sessionPassesFilter st (embedSession (buildSessionMessagesMap messages) s) =
        specPassesAmended st s messages) := by
  constructor
  · intro h
    unfold updateFiltersSessions
    have hfalse : ∀ e : EmbSession, sessionPassesFilter st e = false := by
      intro e
      unfold sessionPassesFilter
      rw [h]
      rfl
    induction embedSessions sessions messages with
    | nil => rfl
    | cons e es ih =>
      rw [List.filter_cons]
      simp only [hfalse e, Bool.false_eq_true, if_false]
      exact ih
  · intro s
    have hv : extractVersionFromSession (buildSessionMessagesMap messages) s =
        specResolvedVersion s messages := extractVersion_eq_spec s messages
    simp only [sessionPassesFilter, specPassesAmended, embedSession, hv]
    cases hE : st.selectedExperiments.isEmpty with
    | true => simp [hE]
    | false =>
      simp only [hE, Bool.false_eq_true, if_false, Bool.not_false, Bool.true_and]
      cases hC : st.selectedExperiments.contains (match s.experiment with
          | some e => e.id.getD ""
          | none => "") with
      | false => simp [hC]
      | true =>
        simp only [hC, if_true, Bool.true_and]
        cases hL : lookupAssoc st.selectedVersions (match s.experiment with
            | some e => e.id.getD ""
            | none => "") with
        | none => simp [hL]
        | some vs =>
          simp only [hL]
          cases hI : vs.isEmpty with
          | true => simp [hI]
          | false => simp [hI]

/-- Witness for C3 at a concrete state, session and bundle. -/
theorem claim3_amended_witness :
    updateFiltersSessions { selectedExperiments := [], selectedVersions := [] }
      (embedSessions [sessionV0] [bundleV0]) = [] ∧
    sessionPassesFilter stateV1 (embedSession (buildSessionMessagesMap [bundleV0]) sessionV0) =
      specPassesAmended stateV1 sessionV0 [bundleV0] :=
  ⟨(claim3_amended { selectedExperiments := [], selectedVersions := [] } [sessionV0]
      [bundleV0]).1 rfl,
   (claim3_amended stateV1 [sessionV0] [bundleV0]).2 sessionV0⟩

end OCS
